import Mathlib

/-!
# The Tronity vehicle of evcc (`vehicle/tronity.go`)

A shallow embedding of `NewTronityFromConfig` (from the point where the vehicle
list is fetched, line 116, to the end) and of the methods of `*Tronity`:
`vehicles`, `bulk`, `SoC`, `status`, `Range`, `odometer`, `post`,
`startCharge`, `stopCharge`.

Conventions.
* A Go `error` is `Option Error` (`none` is `nil`).
* A Go `interface{}` result of the bulk getter is `Iface`: either a value whose
  dynamic type is `tronity.Bulk`, or anything else (`nil` included), which is
  all the type assertion `res.(tronity.Bulk)` distinguishes.
* `float64` is a type parameter `F` with a zero: the code only copies floats
  and converts one of them with `int64(..)`.
* What the Go standard library, third party packages and the packages of the
  repository that are not among the sources provide is collected in `Ext`
  and taken as a parameter.
* One call of a remote or cached function is a function application; the
  fields `Post`, `GetJSONVehicles`, `GetJSONBulk` and `bulkG` of the receiver
  say what that call returns.
-/

namespace evcc

/-! ## Collaborating packages -/

namespace request

/-- The part of `http.Response` the code looks at. -/
structure Response where
  StatusCode : Int
  deriving DecidableEq, Repr

end request

/-- Go error values: a `request.StatusError` (it wraps the response), or any
other error, of which only the text is kept (`errors.New(text)`). -/
inductive Error where
  | StatusError (resp : request.Response)
  | New (text : String)
  deriving DecidableEq, Repr

namespace request

/-- Modelled from the spec: `request.ResponseError` of `util/request`, which is
not among the sources. A response outside 2xx is an error that carries the
response (a `StatusError`); a 2xx response is no error. -/
def ResponseError (resp : Response) : Option Error :=
  if resp.StatusCode < 200 ∨ resp.StatusCode ≥ 300 then
    some (Error.StatusError resp)
  else
    none

/-- Modelled from the spec: `StatusError.HasStatus` of `util/request`, which is
not among the sources. It tells whether the wrapped response has one of the
given status codes. -/
def HasStatus (resp : Response) (codes : List Int) : Bool :=
  codes.contains resp.StatusCode

end request

namespace http

/-- The Go constant `http.StatusMethodNotAllowed`. -/
def StatusMethodNotAllowed : Int := 405

end http

namespace api

/-- Modelled from the spec: `api.ChargeStatus` of package `api`, which is not
among the sources. `StatusA` is "disconnected", `StatusB` is "connected" and
`StatusC` is "charging". -/
inductive ChargeStatus where
  | StatusA
  | StatusB
  | StatusC
  deriving DecidableEq, Repr

end api

namespace tronity

/-- Modelled from the spec: `tronity.Vehicle` of `vehicle/tronity`, which is not
among the sources: remote identifier, VIN and granted scopes. -/
structure Vehicle where
  ID : String
  VIN : String
  Scopes : List String
  deriving DecidableEq, Repr

/-- The Go zero value of `tronity.Vehicle` (`var vehicle tronity.Vehicle`). -/
def Vehicle.zero : Vehicle := ⟨"", "", []⟩

/-- Modelled from the spec: `tronity.Vehicles`, the decoded vehicle listing. -/
structure Vehicles where
  Data : List Vehicle
  deriving DecidableEq, Repr

/-- Modelled from the spec: `tronity.Bulk` of `vehicle/tronity`, which is not
among the sources: the telemetry snapshot. -/
structure Bulk (F : Type) where
  Level : F
  Range : F
  Odometer : F
  Charging : String

end tronity

namespace funk

/-- The function `funk.ContainsString` of go-funk: is `v` an element of `s`. -/
def ContainsString (s : List String) (v : String) : Bool :=
  s.contains v

end funk

/-- A Go `interface{}` as returned by the bulk getter. -/
inductive Iface (F : Type) where
  | Bulk (res : tronity.Bulk F)
  | other

/-- What the code takes from outside the sources: `strings.ToUpper`, the
conversion `int64(x)` of a float, the constants of package `tronity`, and
`provider.NewCached(g, cache).InterfaceGetter()`. -/
structure Ext (F : Type) where
  ToUpper : String → String
  int64 : F → Int
  URI : String
  ReadCharge : String
  ReadOdometer : String
  WriteChargeStartStop : String
  NewCached : (Unit → Iface F × Option Error) → Int → (Unit → Iface F × Option Error)

namespace vehicle

/-- The receiver `Tronity`: the request helper (what a POST to a uri and what
a `GetJSON` of a uri return), the vehicle id and the cached bulk getter. -/
structure Tronity (F : Type) where
  Post : String → Except Error request.Response
  GetJSONVehicles : String → tronity.Vehicles × Option Error
  GetJSONBulk : String → tronity.Bulk F × Option Error
  vid : String
  bulkG : Unit → Iface F × Option Error

/-- The fields of the configuration `cc` read after the vehicle list is
fetched. -/
structure Config where
  VIN : String
  Cache : Int

/-- Modelled from the spec: the result of `decorateTronity`, which is generated
code and not among the sources: the handle together with the four optional
facets it was given (`none` is a nil function). -/
structure Decorated (F : Type) where
  base : Tronity F
  status : Option (Unit → api.ChargeStatus × Option Error)
  odometer : Option (Unit → F × Option Error)
  startCharge : Option (Unit → Option Error)
  stopCharge : Option (Unit → Option Error)

variable {F : Type}

/-- Modelled from the spec: `decorateTronity` keeps its five arguments. -/
def decorateTronity (base : Tronity F)
    (status : Option (Unit → api.ChargeStatus × Option Error))
    (odometer : Option (Unit → F × Option Error))
    (startCharge stopCharge : Option (Unit → Option Error)) : Decorated F :=
  ⟨base, status, odometer, startCharge, stopCharge⟩

/-- `vehicles implements the vehicles api` -/
def Tronity.vehicles (X : Ext F) (v : Tronity F) : List tronity.Vehicle × Option Error :=
  let uri := X.URI ++ "/v1/vehicles"
  let (res, err) := v.GetJSONVehicles uri
  (res.Data, err)

/-- `bulk implements the bulk api` -/
def Tronity.bulk (X : Ext F) (v : Tronity F) : Iface F × Option Error :=
  let uri := X.URI ++ "/v1/vehicles/" ++ v.vid ++ "/bulk"
  let (res, err) := v.GetJSONBulk uri
  (Iface.Bulk res, err)

/-- `SoC implements the api.Vehicle interface` -/
def Tronity.SoC [Zero F] (v : Tronity F) : F × Option Error :=
  let (res, err) := v.bulkG ()
  match res, err with
  | Iface.Bulk res, none => (res.Level, none)
  | _, _ => (0, err)

/-- `status implements the api.ChargeState interface` -/
def Tronity.status (v : Tronity F) : api.ChargeStatus × Option Error :=
  let status := api.ChargeStatus.StatusA
  let (res, err) := v.bulkG ()
  let status :=
    match res, err with
    | Iface.Bulk res, none =>
      if res.Charging = "Charging" then api.ChargeStatus.StatusC else status
    | _, _ => status
  (status, err)

/-- `Range implements the api.VehicleRange interface` -/
def Tronity.Range (X : Ext F) (v : Tronity F) : Int × Option Error :=
  let (res, err) := v.bulkG ()
  match res, err with
  | Iface.Bulk res, none => (X.int64 res.Range, none)
  | _, _ => (0, err)

/-- `odometer implements the api.VehicleOdometer interface` -/
def Tronity.odometer [Zero F] (v : Tronity F) : F × Option Error :=
  let (res, err) := v.bulkG ()
  match res, err with
  | Iface.Bulk res, none => (res.Odometer, none)
  | _, _ => (0, err)

/-- The method `post`: the POST, then `request.ResponseError` on the response,
then `ignore HTTP 405`. -/
def Tronity.post (v : Tronity F) (uri : String) : Option Error :=
  let err : Option Error :=
    match v.Post uri with
    | Except.ok resp => request.ResponseError resp
    | Except.error err => some err
  match err with
  | some (Error.StatusError resp) =>
    if request.HasStatus resp [http.StatusMethodNotAllowed] then none else err
  | _ => err

/-- `startCharge implements the api.VehicleStartCharge interface` -/
def Tronity.startCharge (X : Ext F) (v : Tronity F) : Option Error :=
  let uri := X.URI ++ "/v1/vehicles/" ++ v.vid ++ "/charge_start"
  v.post uri

/-- `stopCharge implements the api.VehicleStopCharge interface` -/
def Tronity.stopCharge (X : Ext F) (v : Tronity F) : Option Error :=
  let uri := X.URI ++ "/v1/vehicles/" ++ v.vid ++ "/charge_stop"
  v.post uri

/-- Lines 121-130 of `NewTronityFromConfig`: the vehicle that is selected, the
zero value when none is. -/
def selectVehicle (X : Ext F) (VIN : String) (vehicles : List tronity.Vehicle) :
    tronity.Vehicle :=
  if VIN = "" ∧ vehicles.length = 1 then
    vehicles.getD 0 tronity.Vehicle.zero
  else
    vehicles.foldl
      (fun vehicle v => if v.VIN = X.ToUpper VIN then v else vehicle)
      tronity.Vehicle.zero

/-- `NewTronityFromConfig creates a new vehicle`, from line 116 on: `cc` is the
decoded configuration and `v` the vehicle built so far, with the
authenticated transport installed. -/
def NewTronityFromConfig [Zero F] (X : Ext F) (cc : Config) (v : Tronity F) :
    Except Error (Decorated F) :=
  let (vehicles, err) := v.vehicles X
  match err with
  | some err => Except.error err
  | none =>
    let vehicle := selectVehicle X cc.VIN vehicles
    if vehicle.ID = "" then
      Except.error (Error.New "vin not found")
    else
      let v := { v with vid := vehicle.ID }
      let v := { v with bulkG := X.NewCached (fun _ => v.bulk X) cc.Cache }
      let status :=
        if funk.ContainsString vehicle.Scopes X.ReadCharge then
          some (fun _ => v.status)
        else none
      let odometer :=
        if funk.ContainsString vehicle.Scopes X.ReadOdometer then
          some (fun _ => v.odometer)
        else none
      let start :=
        if funk.ContainsString vehicle.Scopes X.WriteChargeStartStop then
          some (fun _ => v.startCharge X)
        else none
      let stop :=
        if funk.ContainsString vehicle.Scopes X.WriteChargeStartStop then
          some (fun _ => v.stopCharge X)
        else none
      Except.ok (decorateTronity v status odometer start stop)

end vehicle

namespace provider

/-- Modelled from the spec: the cache entry of the cached getter of package
`provider`, which is not among the sources: the time of the last fetch and the
outcome (value or error) that fetch stored. -/
structure Entry (α : Type) where
  updated : Int
  outcome : α

/-- Modelled from the spec: the state of the cached getter: the configured
time-to-live, the entry if one exists, and how many times the wrapped getter
has been invoked so far. -/
structure Cached (α : Type) where
  cache : Int
  entry : Option (Entry α)
  calls : Nat

/-- Modelled from the spec: `provider.NewCached(g, cache)` starts without an
entry. -/
def NewCached {α : Type} (cache : Int) : Cached α :=
  ⟨cache, none, 0⟩

/-- Modelled from the spec: a fetch invokes the wrapped getter once and stores
its outcome as the new entry with a fresh timestamp; `g n` is what invocation
number `n` of the wrapped getter returns. -/
def Cached.fetch {α : Type} (g : Nat → α) (now : Int) (c : Cached α) : α × Cached α :=
  let r := g c.calls
  (r, { c with entry := some ⟨now, r⟩, calls := c.calls + 1 })

/-- Modelled from the spec: one call of the cached getter at time `now`: "if an
entry exists and its age is within the configured time-to-live, return the
cached value immediately with no network call; otherwise ... start exactly one
remote fetch". -/
def Cached.InterfaceGetter {α : Type} (g : Nat → α) (now : Int) (c : Cached α) :
    α × Cached α :=
  match c.entry with
  | some e => if now - e.updated ≤ c.cache then (e.outcome, c) else c.fetch g now
  | none => c.fetch g now

end provider

namespace strings

/-- The function `strings.ToUpper` on ASCII text: the letters a to z are mapped
to A to Z and every other character is kept. It instantiates `Ext.ToUpper`
where the code is evaluated on concrete (ASCII) inputs. -/
def ToUpperASCII (s : String) : String :=
  String.mk (s.data.map Char.toUpper)

end strings

/-- A concrete `Ext` for evaluating the code: floats are rationals, `int64(x)`
truncates towards zero, and the cached getter fetches on every call. -/
def exampleExt : Ext ℚ where
  ToUpper := strings.ToUpperASCII
  int64 := fun x => Int.tdiv x.num x.den
  URI := "https://api.tronity.tech"
  ReadCharge := "read_charge"
  ReadOdometer := "read_odometer"
  WriteChargeStartStop := "write_charge_start_stop"
  NewCached := fun g _ => g

namespace vehicle

/-- The telemetry snapshot of the scenario in the spec. -/
def exampleBulk : tronity.Bulk ℚ :=
  ⟨145 / 2, 210, 15321, "NotCharging"⟩

/-- A concrete receiver whose vehicle listing is `vs`. -/
def exampleTronity (vs : List tronity.Vehicle) : Tronity ℚ where
  Post := fun _ => Except.ok ⟨200⟩
  GetJSONVehicles := fun _ => (⟨vs⟩, none)
  GetJSONBulk := fun _ => (exampleBulk, none)
  vid := ""
  bulkG := fun _ => (Iface.other, none)

/-- A concrete receiver whose cached getter returns `r`. -/
def exampleGetter (r : Iface ℚ × Option Error) : Tronity ℚ :=
  { exampleTronity [] with vid := "id1", bulkG := fun _ => r }

/-- A concrete receiver whose POST is answered by `o`. -/
def examplePoster (o : Except Error request.Response) : Tronity ℚ :=
  { exampleTronity [] with vid := "id1", Post := fun _ => o }

end vehicle

/-! ## Theorems -/

/-! ### The ASCII instance of `strings.ToUpper` -/

namespace strings

/-- Upper-casing an ASCII-upper-cased character changes nothing. -/
theorem Char_toUpper_idem (c : Char) : c.toUpper.toUpper = c.toUpper := by
  by_cases h : c.toNat ≥ 97 ∧ c.toNat ≤ 122
  · have hc : c.toUpper = Char.ofNat (c.toNat - 32) := by
      simp only [Char.toUpper, Char.toNat] at h ⊢
      rw [if_pos h]
    rw [hc]
    generalize c.toNat = n at h
    obtain ⟨h1, h2⟩ := h
    interval_cases n <;> rfl
  · have hc : c.toUpper = c := by
      simp only [Char.toUpper, Char.toNat] at h ⊢
      rw [if_neg h]
    rw [hc, hc]

/-- The ASCII upper-casing is idempotent. -/
theorem ToUpperASCII_idem (s : String) : ToUpperASCII (ToUpperASCII s) = ToUpperASCII s := by
  have h : Char.toUpper ∘ Char.toUpper = Char.toUpper := funext Char_toUpper_idem
  simp [ToUpperASCII, h]

end strings

/-! ### Vehicle selection and construction -/

namespace vehicle

variable {F : Type}

/-- A selection loop that never finds a match keeps its initial value. -/
theorem foldl_pick_none {α : Type} (p : α → Prop) [DecidablePred p] (l : List α) (init : α)
    (h : ∀ a ∈ l, ¬ p a) :
    l.foldl (fun acc a => if p a then a else acc) init = init := by
  induction l generalizing init with
  | nil => rfl
  | cons a l ih =>
    have ha : ¬ p a := h a (List.mem_cons_self a l)
    simp only [List.foldl_cons, if_neg ha]
    exact ih init (fun b hb => h b (List.mem_cons_of_mem a hb))

/-- A selection loop over a list with exactly one match ends with that match. -/
theorem foldl_pick_single {α : Type} (p : α → Prop) [DecidablePred p] (l : List α) (init w : α)
    (h : l.filter (fun a => decide (p a)) = [w]) :
    l.foldl (fun acc a => if p a then a else acc) init = w := by
  induction l generalizing init with
  | nil => simp at h
  | cons a l ih =>
    by_cases ha : p a
    · simp only [List.foldl_cons, if_pos ha]
      rw [List.filter_cons_of_pos (by simpa using ha)] at h
      have h1 : a = w := by injection h
      have h2 : l.filter (fun a => decide (p a)) = [] := by injection h
      rw [← h1]
      apply foldl_pick_none
      intro b hb hpb
      have : b ∈ l.filter (fun a => decide (p a)) := List.mem_filter.mpr ⟨hb, by simpa using hpb⟩
      rw [h2] at this
      exact absurd this (List.not_mem_nil b)
    · simp only [List.foldl_cons, if_neg ha]
      rw [List.filter_cons_of_neg (by simpa using ha)] at h
      exact ih init h

/-- With a non-empty configured VIN the loop returns the only vehicle whose stored VIN
equals the uppercased configured VIN. -/
theorem selectVehicle_of_single_match (X : Ext F) (VIN : String) (vs : List tronity.Vehicle)
    (w : tronity.Vehicle) (hne : VIN ≠ "")
    (huniq : vs.filter (fun u => decide (u.VIN = X.ToUpper VIN)) = [w]) :
    selectVehicle X VIN vs = w := by
  unfold selectVehicle
  rw [if_neg (fun h => hne h.1)]
  exact foldl_pick_single (fun u : tronity.Vehicle => u.VIN = X.ToUpper VIN) vs _ w huniq

/-- When the first branch is not taken and no stored VIN equals the uppercased
configured VIN, the zero vehicle is left selected. -/
theorem selectVehicle_of_no_match (X : Ext F) (VIN : String) (vs : List tronity.Vehicle)
    (hbranch : ¬ (VIN = "" ∧ vs.length = 1))
    (hno : ∀ u ∈ vs, u.VIN ≠ X.ToUpper VIN) :
    selectVehicle X VIN vs = tronity.Vehicle.zero := by
  unfold selectVehicle
  rw [if_neg hbranch]
  exact foldl_pick_none (fun u : tronity.Vehicle => u.VIN = X.ToUpper VIN) vs _ hno

/-- When the listing succeeds and the selected vehicle has an empty ID, construction
fails with vin not found. -/
theorem NewTronityFromConfig_error [Zero F] (X : Ext F) (cc : Config) (v : Tronity F)
    (vs : List tronity.Vehicle) (hv : v.vehicles X = (vs, none))
    (hid : (selectVehicle X cc.VIN vs).ID = "") :
    NewTronityFromConfig X cc v = Except.error (Error.New "vin not found") := by
  simp only [NewTronityFromConfig, hv, hid, if_true]

/-- When the listing succeeds and the selected vehicle has a non-empty ID, construction
succeeds, the handle gets that ID, and each facet is present exactly when its scope
test holds. -/
theorem NewTronityFromConfig_ok [Zero F] (X : Ext F) (cc : Config) (v : Tronity F)
    (vs : List tronity.Vehicle) (hv : v.vehicles X = (vs, none))
    (hid : (selectVehicle X cc.VIN vs).ID ≠ "") :
    ∃ d, NewTronityFromConfig X cc v = Except.ok d ∧
      d.base.vid = (selectVehicle X cc.VIN vs).ID ∧
      d.status.isSome = funk.ContainsString (selectVehicle X cc.VIN vs).Scopes X.ReadCharge ∧
      d.odometer.isSome = funk.ContainsString (selectVehicle X cc.VIN vs).Scopes X.ReadOdometer ∧
      d.startCharge.isSome =
        funk.ContainsString (selectVehicle X cc.VIN vs).Scopes X.WriteChargeStartStop ∧
      d.stopCharge.isSome =
        funk.ContainsString (selectVehicle X cc.VIN vs).Scopes X.WriteChargeStartStop := by
  simp only [NewTronityFromConfig, hv, if_neg hid]
  refine ⟨_, rfl, rfl, ?_, ?_, ?_, ?_⟩ <;>
    simp only [decorateTronity] <;> split <;> simp_all

/-- C1. Whenever the listing succeeds and a vehicle is resolved, NewTronityFromConfig
returns the decorated handle, and the status function passed to decorateTronity is
non-nil iff the scopes of the resolved vehicle contain ReadCharge, the odometer
function iff they contain ReadOdometer, the start and the stop function each iff
they contain WriteChargeStartStop; start is non-nil exactly when stop is. -/
theorem C1_facets_follow_scopes [Zero F] (X : Ext F) (cc : Config) (v : Tronity F)
    (vs : List tronity.Vehicle) (hv : v.vehicles X = (vs, none))
    (hid : (selectVehicle X cc.VIN vs).ID ≠ "") :
    ∃ d, NewTronityFromConfig X cc v = Except.ok d ∧
      (d.status.isSome ↔ X.ReadCharge ∈ (selectVehicle X cc.VIN vs).Scopes) ∧
      (d.odometer.isSome ↔ X.ReadOdometer ∈ (selectVehicle X cc.VIN vs).Scopes) ∧
      (d.startCharge.isSome ↔ X.WriteChargeStartStop ∈ (selectVehicle X cc.VIN vs).Scopes) ∧
      (d.stopCharge.isSome ↔ X.WriteChargeStartStop ∈ (selectVehicle X cc.VIN vs).Scopes) ∧
      (d.startCharge.isSome ↔ d.stopCharge.isSome) := by
  obtain ⟨d, hd, _, h1, h2, h3, h4⟩ := NewTronityFromConfig_ok X cc v vs hv hid
  refine ⟨d, hd, ?_, ?_, ?_, ?_, ?_⟩
  · rw [h1]; simp [funk.ContainsString]
  · rw [h2]; simp [funk.ContainsString]
  · rw [h3]; simp [funk.ContainsString]
  · rw [h4]; simp [funk.ContainsString]
  · rw [h3, h4]

/-- C1 at a vehicle with scopes read_charge and write_charge_start_stop. -/
theorem C1_facets_follow_scopes_witness :
    (exampleTronity [⟨"id1", "WVWZZZ", ["read_charge", "write_charge_start_stop"]⟩]).vehicles
        exampleExt
      = ([⟨"id1", "WVWZZZ", ["read_charge", "write_charge_start_stop"]⟩], none) ∧
    (selectVehicle exampleExt "wvwzzz"
        [⟨"id1", "WVWZZZ", ["read_charge", "write_charge_start_stop"]⟩]).ID ≠ "" ∧
    ∃ d, NewTronityFromConfig exampleExt ⟨"wvwzzz", 60⟩
          (exampleTronity [⟨"id1", "WVWZZZ", ["read_charge", "write_charge_start_stop"]⟩])
        = Except.ok d ∧
      (d.status.isSome ↔ exampleExt.ReadCharge ∈ (selectVehicle exampleExt "wvwzzz"
        [⟨"id1", "WVWZZZ", ["read_charge", "write_charge_start_stop"]⟩]).Scopes) ∧
      (d.odometer.isSome ↔ exampleExt.ReadOdometer ∈ (selectVehicle exampleExt "wvwzzz"
        [⟨"id1", "WVWZZZ", ["read_charge", "write_charge_start_stop"]⟩]).Scopes) ∧
      (d.startCharge.isSome ↔ exampleExt.WriteChargeStartStop ∈ (selectVehicle exampleExt "wvwzzz"
        [⟨"id1", "WVWZZZ", ["read_charge", "write_charge_start_stop"]⟩]).Scopes) ∧
      (d.stopCharge.isSome ↔ exampleExt.WriteChargeStartStop ∈ (selectVehicle exampleExt "wvwzzz"
        [⟨"id1", "WVWZZZ", ["read_charge", "write_charge_start_stop"]⟩]).Scopes) ∧
      (d.startCharge.isSome ↔ d.stopCharge.isSome) :=
  ⟨by decide, by decide,
    C1_facets_follow_scopes exampleExt ⟨"wvwzzz", 60⟩
      (exampleTronity [⟨"id1", "WVWZZZ", ["read_charge", "write_charge_start_stop"]⟩])
      [⟨"id1", "WVWZZZ", ["read_charge", "write_charge_start_stop"]⟩] (by decide) (by decide)⟩

/-- C2 as stated fails. Configured WVW against the single catalog entry wvw: the two
VINs agree once both are uppercased, yet nothing is selected and construction fails
with vin not found. Configured wvw against the single entry WVW whose ID is empty:
the entry is selected, yet construction fails with vin not found. -/
theorem C2_counterexample :
    ((("WVW" : String) ≠ "" ∧
      ([⟨"id1", "wvw", []⟩] : List tronity.Vehicle).filter
          (fun u => decide (exampleExt.ToUpper u.VIN = exampleExt.ToUpper "WVW"))
        = [⟨"id1", "wvw", []⟩]) ∧
      selectVehicle exampleExt "WVW" [⟨"id1", "wvw", []⟩] = tronity.Vehicle.zero ∧
      NewTronityFromConfig exampleExt ⟨"WVW", 60⟩ (exampleTronity [⟨"id1", "wvw", []⟩])
        = Except.error (Error.New "vin not found")) ∧
    ((("wvw" : String) ≠ "" ∧
      ([⟨"", "WVW", []⟩] : List tronity.Vehicle).filter
          (fun u => decide (exampleExt.ToUpper u.VIN = exampleExt.ToUpper "wvw"))
        = [⟨"", "WVW", []⟩]) ∧
      selectVehicle exampleExt "wvw" [⟨"", "WVW", []⟩] = ⟨"", "WVW", []⟩ ∧
      NewTronityFromConfig exampleExt ⟨"wvw", 60⟩ (exampleTronity [⟨"", "WVW", []⟩])
        = Except.error (Error.New "vin not found")) :=
  ⟨⟨by decide, by decide, rfl⟩, ⟨by decide, by decide, rfl⟩⟩

/-- C2 (amended). For a non-empty configured VIN and a listing in which exactly one
vehicle has a stored VIN equal to the uppercased configured VIN, if that vehicle has
a non-empty ID then it is selected: construction succeeds and v.vid is its ID. -/
theorem C2_vin_match_selects [Zero F] (X : Ext F) (cc : Config) (v : Tronity F)
    (vs : List tronity.Vehicle) (w : tronity.Vehicle)
    (hv : v.vehicles X = (vs, none)) (hne : cc.VIN ≠ "")
    (huniq : vs.filter (fun u => decide (u.VIN = X.ToUpper cc.VIN)) = [w])
    (hid : w.ID ≠ "") :
    selectVehicle X cc.VIN vs = w ∧
      ∃ d, NewTronityFromConfig X cc v = Except.ok d ∧ d.base.vid = w.ID := by
  have hsel := selectVehicle_of_single_match X cc.VIN vs w hne huniq
  refine ⟨hsel, ?_⟩
  obtain ⟨d, hd, hvid, _⟩ := NewTronityFromConfig_ok X cc v vs hv (by rw [hsel]; exact hid)
  exact ⟨d, hd, by rw [hvid, hsel]⟩

/-- C2 (amended) at the scenario of the spec: configured wvwzzz selects the catalog
entry WVWZZZ. -/
theorem C2_vin_match_selects_witness :
    ((exampleTronity [⟨"id1", "WVWZZZ", []⟩, ⟨"id2", "TMBJJ", []⟩]).vehicles exampleExt
        = ([⟨"id1", "WVWZZZ", []⟩, ⟨"id2", "TMBJJ", []⟩], none) ∧
      ("wvwzzz" : String) ≠ "" ∧
      ([⟨"id1", "WVWZZZ", []⟩, ⟨"id2", "TMBJJ", []⟩] : List tronity.Vehicle).filter
          (fun u => decide (u.VIN = exampleExt.ToUpper "wvwzzz"))
        = [⟨"id1", "WVWZZZ", []⟩] ∧
      ("id1" : String) ≠ "") ∧
    (selectVehicle exampleExt "wvwzzz" [⟨"id1", "WVWZZZ", []⟩, ⟨"id2", "TMBJJ", []⟩]
        = ⟨"id1", "WVWZZZ", []⟩ ∧
      ∃ d, NewTronityFromConfig exampleExt ⟨"wvwzzz", 60⟩
            (exampleTronity [⟨"id1", "WVWZZZ", []⟩, ⟨"id2", "TMBJJ", []⟩]) = Except.ok d ∧
        d.base.vid = "id1") :=
  ⟨by decide,
    C2_vin_match_selects exampleExt ⟨"wvwzzz", 60⟩
      (exampleTronity [⟨"id1", "WVWZZZ", []⟩, ⟨"id2", "TMBJJ", []⟩])
      [⟨"id1", "WVWZZZ", []⟩, ⟨"id2", "TMBJJ", []⟩] ⟨"id1", "WVWZZZ", []⟩
      (by decide) (by decide) (by decide) (by decide)⟩

/-- C3 as stated fails. With an empty configured VIN and two vehicles of which the first
has an empty VIN, that vehicle is selected and construction succeeds with its ID. -/
theorem C3_counterexample :
    2 ≤ ([⟨"a", "", []⟩, ⟨"b", "B", []⟩] : List tronity.Vehicle).length ∧
    selectVehicle exampleExt "" [⟨"a", "", []⟩, ⟨"b", "B", []⟩] = ⟨"a", "", []⟩ ∧
    ∃ d, NewTronityFromConfig exampleExt ⟨"", 60⟩
          (exampleTronity [⟨"a", "", []⟩, ⟨"b", "B", []⟩]) = Except.ok d ∧
      d.base.vid = "a" :=
  ⟨by decide, by decide, _, rfl, rfl⟩

/-- C3 (amended). With an empty configured VIN and a listing of two or more vehicles
none of which has an empty VIN, no vehicle is selected and construction fails with
vin not found (strings.ToUpper maps the empty string to itself). -/
theorem C3_empty_vin_many_fails [Zero F] (X : Ext F) (cc : Config) (v : Tronity F)
    (vs : List tronity.Vehicle)
    (hup : X.ToUpper "" = "")
    (hv : v.vehicles X = (vs, none)) (hcfg : cc.VIN = "") (hlen : 2 ≤ vs.length)
    (hvin : ∀ u ∈ vs, u.VIN ≠ "") :
    selectVehicle X cc.VIN vs = tronity.Vehicle.zero ∧
      NewTronityFromConfig X cc v = Except.error (Error.New "vin not found") := by
  have hsel : selectVehicle X cc.VIN vs = tronity.Vehicle.zero := by
    apply selectVehicle_of_no_match X cc.VIN vs (fun h => by omega)
    intro u hu
    rw [hcfg, hup]
    exact hvin u hu
  refine ⟨hsel, NewTronityFromConfig_error X cc v vs hv ?_⟩
  rw [hsel]; rfl

/-- C3 (amended) at a listing of two vehicles with VINs A and B. -/
theorem C3_empty_vin_many_fails_witness :
    (exampleExt.ToUpper "" = "" ∧
      (exampleTronity [⟨"a", "A", []⟩, ⟨"b", "B", []⟩]).vehicles exampleExt
        = ([⟨"a", "A", []⟩, ⟨"b", "B", []⟩], none) ∧
      2 ≤ ([⟨"a", "A", []⟩, ⟨"b", "B", []⟩] : List tronity.Vehicle).length ∧
      ∀ u ∈ ([⟨"a", "A", []⟩, ⟨"b", "B", []⟩] : List tronity.Vehicle), u.VIN ≠ "") ∧
    (selectVehicle exampleExt "" [⟨"a", "A", []⟩, ⟨"b", "B", []⟩] = tronity.Vehicle.zero ∧
      NewTronityFromConfig exampleExt ⟨"", 60⟩
          (exampleTronity [⟨"a", "A", []⟩, ⟨"b", "B", []⟩])
        = Except.error (Error.New "vin not found")) :=
  ⟨by decide,
    C3_empty_vin_many_fails exampleExt ⟨"", 60⟩
      (exampleTronity [⟨"a", "A", []⟩, ⟨"b", "B", []⟩]) [⟨"a", "A", []⟩, ⟨"b", "B", []⟩]
      (by decide) (by decide) rfl (by decide) (by decide)⟩

/-- C4 as stated fails. With an empty configured VIN and a single vehicle whose ID is
empty, the vehicle is picked by the first branch, yet construction fails with vin
not found. -/
theorem C4_counterexample :
    selectVehicle exampleExt "" [⟨"", "WVWZZZ", []⟩] = ⟨"", "WVWZZZ", []⟩ ∧
    NewTronityFromConfig exampleExt ⟨"", 60⟩ (exampleTronity [⟨"", "WVWZZZ", []⟩])
      = Except.error (Error.New "vin not found") :=
  ⟨by decide, rfl⟩

/-- C4 (amended). With an empty configured VIN and a listing of exactly one vehicle
whose ID is non-empty, that vehicle is selected whatever its VIN: construction
succeeds and v.vid is its ID. -/
theorem C4_single_vehicle_selected [Zero F] (X : Ext F) (cc : Config) (v : Tronity F)
    (w : tronity.Vehicle)
    (hv : v.vehicles X = ([w], none)) (hcfg : cc.VIN = "") (hid : w.ID ≠ "") :
    selectVehicle X cc.VIN [w] = w ∧
      ∃ d, NewTronityFromConfig X cc v = Except.ok d ∧ d.base.vid = w.ID := by
  have hsel : selectVehicle X cc.VIN [w] = w := by
    unfold selectVehicle
    rw [if_pos ⟨hcfg, rfl⟩]
    rfl
  refine ⟨hsel, ?_⟩
  obtain ⟨d, hd, hvid, _⟩ := NewTronityFromConfig_ok X cc v [w] hv (by rw [hsel]; exact hid)
  exact ⟨d, hd, by rw [hvid, hsel]⟩

/-- C4 (amended) at a single vehicle with ID id1. -/
theorem C4_single_vehicle_selected_witness :
    ((exampleTronity [⟨"id1", "WVWZZZ", []⟩]).vehicles exampleExt
        = ([⟨"id1", "WVWZZZ", []⟩], none) ∧
      ("id1" : String) ≠ "") ∧
    (selectVehicle exampleExt "" [⟨"id1", "WVWZZZ", []⟩] = ⟨"id1", "WVWZZZ", []⟩ ∧
      ∃ d, NewTronityFromConfig exampleExt ⟨"", 60⟩ (exampleTronity [⟨"id1", "WVWZZZ", []⟩])
          = Except.ok d ∧ d.base.vid = "id1") :=
  ⟨by decide,
    C4_single_vehicle_selected exampleExt ⟨"", 60⟩ (exampleTronity [⟨"id1", "WVWZZZ", []⟩])
      ⟨"id1", "WVWZZZ", []⟩ (by decide) rfl (by decide)⟩

/-- C9. For a non-empty configured VIN and a listing in which no vehicle has a VIN equal
to the configured VIN after both are uppercased, NewTronityFromConfig fails with vin
not found and returns no handle (strings.ToUpper is idempotent). -/
theorem C9_no_match_fails [Zero F] (X : Ext F) (cc : Config) (v : Tronity F)
    (vs : List tronity.Vehicle)
    (hup : ∀ s, X.ToUpper (X.ToUpper s) = X.ToUpper s)
    (hv : v.vehicles X = (vs, none)) (hne : cc.VIN ≠ "")
    (hno : ∀ u ∈ vs, X.ToUpper u.VIN ≠ X.ToUpper cc.VIN) :
    NewTronityFromConfig X cc v = Except.error (Error.New "vin not found") := by
  apply NewTronityFromConfig_error X cc v vs hv
  rw [selectVehicle_of_no_match X cc.VIN vs (fun h => hne h.1)]
  · rfl
  · intro u hu h
    apply hno u hu
    rw [h, hup]

/-- C9 at configured wauzzz against the entries WVWZZZ and TMBJJ. -/
theorem C9_no_match_fails_witness :
    ((exampleTronity [⟨"id1", "WVWZZZ", []⟩, ⟨"id2", "TMBJJ", []⟩]).vehicles exampleExt
        = ([⟨"id1", "WVWZZZ", []⟩, ⟨"id2", "TMBJJ", []⟩], none) ∧
      ("wauzzz" : String) ≠ "" ∧
      ∀ u ∈ ([⟨"id1", "WVWZZZ", []⟩, ⟨"id2", "TMBJJ", []⟩] : List tronity.Vehicle),
        exampleExt.ToUpper u.VIN ≠ exampleExt.ToUpper "wauzzz") ∧
    NewTronityFromConfig exampleExt ⟨"wauzzz", 60⟩
        (exampleTronity [⟨"id1", "WVWZZZ", []⟩, ⟨"id2", "TMBJJ", []⟩])
      = Except.error (Error.New "vin not found") :=
  ⟨by decide,
    C9_no_match_fails exampleExt ⟨"wauzzz", 60⟩
      (exampleTronity [⟨"id1", "WVWZZZ", []⟩, ⟨"id2", "TMBJJ", []⟩])
      [⟨"id1", "WVWZZZ", []⟩, ⟨"id2", "TMBJJ", []⟩]
      strings.ToUpperASCII_idem (by decide) (by decide) (by decide)⟩

end vehicle

/-! ### The accessors over the cached bulk getter -/

namespace vehicle

variable {F : Type}

/-- C5 as stated fails. For the bulk value of the scenario, whose Charging field is
NotCharging, status returns StatusA (disconnected) with a nil error, not StatusB
(connected). -/
theorem C5_counterexample :
    (exampleGetter (Iface.Bulk exampleBulk, none)).bulkG () = (Iface.Bulk exampleBulk, none) ∧
    exampleBulk.Charging = "NotCharging" ∧
    (exampleGetter (Iface.Bulk exampleBulk, none)).status = (api.ChargeStatus.StatusA, none) ∧
    (exampleGetter (Iface.Bulk exampleBulk, none)).status ≠ (api.ChargeStatus.StatusB, none) :=
  ⟨rfl, rfl, by decide, by decide⟩

/-- C5 (amended). For every bulk value fetched without error, status returns a nil error
together with StatusC (charging) when the Charging field equals Charging and with
StatusA (disconnected) otherwise. -/
theorem C5_status_charging_or_disconnected (v : Tronity F) (b : tronity.Bulk F)
    (hb : v.bulkG () = (Iface.Bulk b, none)) :
    v.status =
      (if b.Charging = "Charging" then api.ChargeStatus.StatusC else api.ChargeStatus.StatusA,
        none) := by
  simp only [Tronity.status, hb]

/-- C5 (amended) at a bulk value whose Charging field is Charging. -/
theorem C5_status_charging_or_disconnected_witness :
    (exampleGetter (Iface.Bulk ⟨80, 300, 15321, "Charging"⟩, none)).bulkG ()
      = (Iface.Bulk ⟨80, 300, 15321, "Charging"⟩, none) ∧
    (exampleGetter (Iface.Bulk ⟨80, 300, 15321, "Charging"⟩, none)).status
      = (if ("Charging" : String) = "Charging" then api.ChargeStatus.StatusC
          else api.ChargeStatus.StatusA, none) :=
  ⟨rfl, C5_status_charging_or_disconnected
    (exampleGetter (Iface.Bulk ⟨80, 300, 15321, "Charging"⟩, none))
    ⟨80, 300, 15321, "Charging"⟩ rfl⟩

/-- C6. For every bulk value b returned without error by bulkG, SoC returns (b.Level,
nil), Range returns (int64(b.Range), nil) and odometer returns (b.Odometer, nil). -/
theorem C6_accessors_project_bulk [Zero F] (X : Ext F) (v : Tronity F) (b : tronity.Bulk F)
    (hb : v.bulkG () = (Iface.Bulk b, none)) :
    v.SoC = (b.Level, none) ∧
    v.Range X = (X.int64 b.Range, none) ∧
    v.odometer = (b.Odometer, none) := by
  simp only [Tronity.SoC, Tronity.Range, Tronity.odometer, hb, and_self]

/-- C6 at the scenario of the spec: SoC is 72.5, Range is 210 and odometer is 15321. -/
theorem C6_accessors_project_bulk_witness :
    (exampleGetter (Iface.Bulk exampleBulk, none)).bulkG () = (Iface.Bulk exampleBulk, none) ∧
    (exampleGetter (Iface.Bulk exampleBulk, none)).SoC = (145 / 2, none) ∧
    (exampleGetter (Iface.Bulk exampleBulk, none)).Range exampleExt = (210, none) ∧
    (exampleGetter (Iface.Bulk exampleBulk, none)).odometer = (15321, none) :=
  ⟨rfl, C6_accessors_project_bulk exampleExt (exampleGetter (Iface.Bulk exampleBulk, none))
    exampleBulk rfl⟩

/-- C7. For every error e returned by bulkG, whatever value comes with it, SoC, Range
and odometer return 0 with exactly e, and status returns StatusA (disconnected) with
exactly e. -/
theorem C7_accessors_propagate_error [Zero F] (X : Ext F) (v : Tronity F) (res : Iface F)
    (e : Error) (he : v.bulkG () = (res, some e)) :
    v.SoC = (0, some e) ∧
    v.Range X = (0, some e) ∧
    v.odometer = (0, some e) ∧
    v.status = (api.ChargeStatus.StatusA, some e) := by
  simp only [Tronity.SoC, Tronity.Range, Tronity.odometer, Tronity.status, he]
  cases res <;> simp

/-- C7 at a getter that returns a zero bulk value with an error. -/
theorem C7_accessors_propagate_error_witness :
    (exampleGetter (Iface.Bulk ⟨0, 0, 0, ""⟩, some (Error.New "unexpected status: 500"))).bulkG ()
      = (Iface.Bulk ⟨0, 0, 0, ""⟩, some (Error.New "unexpected status: 500")) ∧
    ((exampleGetter (Iface.Bulk ⟨0, 0, 0, ""⟩, some (Error.New "unexpected status: 500"))).SoC
        = (0, some (Error.New "unexpected status: 500")) ∧
      (exampleGetter (Iface.Bulk ⟨0, 0, 0, ""⟩, some (Error.New "unexpected status: 500"))).Range
          exampleExt
        = (0, some (Error.New "unexpected status: 500")) ∧
      (exampleGetter (Iface.Bulk ⟨0, 0, 0, ""⟩, some (Error.New "unexpected status: 500"))).odometer
        = (0, some (Error.New "unexpected status: 500")) ∧
      (exampleGetter (Iface.Bulk ⟨0, 0, 0, ""⟩, some (Error.New "unexpected status: 500"))).status
        = (api.ChargeStatus.StatusA, some (Error.New "unexpected status: 500"))) :=
  ⟨rfl, C7_accessors_propagate_error exampleExt
    (exampleGetter (Iface.Bulk ⟨0, 0, 0, ""⟩, some (Error.New "unexpected status: 500")))
    (Iface.Bulk ⟨0, 0, 0, ""⟩) (Error.New "unexpected status: 500") rfl⟩

end vehicle

/-! ### Start and stop of charging -/

namespace vehicle

variable {F : Type}

/-- What post returns when the POST yields a response: nil for 2xx and for 405, the
status error of the response otherwise. -/
theorem post_of_response (v : Tronity F) (uri : String) (resp : request.Response)
    (h : v.Post uri = Except.ok resp) :
    v.post uri =
      if (200 ≤ resp.StatusCode ∧ resp.StatusCode < 300) ∨ resp.StatusCode = 405 then none
      else some (Error.StatusError resp) := by
  simp only [Tronity.post, h, request.ResponseError, request.HasStatus,
    http.StatusMethodNotAllowed]
  by_cases h1 : resp.StatusCode < 200 ∨ resp.StatusCode ≥ 300
  · rw [if_pos h1]
    by_cases h2 : resp.StatusCode = 405
    · simp [h2]
    · have h3 : ¬ ((200 ≤ resp.StatusCode ∧ resp.StatusCode < 300) ∨ resp.StatusCode = 405) := by
        omega
      rw [if_neg h3]
      simp [h2]
  · rw [if_neg h1]
    have h3 : (200 ≤ resp.StatusCode ∧ resp.StatusCode < 300) ∨ resp.StatusCode = 405 := by
      omega
    rw [if_pos h3]

/-- What post returns when the POST itself fails: nil for a status error with status
405, the failure unchanged otherwise. -/
theorem post_of_failure (v : Tronity F) (uri : String) (e : Error)
    (h : v.Post uri = Except.error e) :
    v.post uri =
      match e with
      | Error.StatusError resp => if resp.StatusCode = 405 then none else some e
      | Error.New _ => some e := by
  simp only [Tronity.post, h, request.HasStatus, http.StatusMethodNotAllowed]
  cases e with
  | StatusError resp =>
    by_cases h2 : resp.StatusCode = 405 <;> simp [h2]
  | New t => rfl

/-- C8. startCharge and stopCharge are post at their uri, and post returns nil when the
POST yields a 2xx response or a response with status 405, the status error of the
response for every other response, nil for a failed POST whose error is a status
error with status 405, and every other failure of the POST unchanged. -/
theorem C8_post_ignores_405 (X : Ext F) (v : Tronity F) :
    v.startCharge X = v.post (X.URI ++ "/v1/vehicles/" ++ v.vid ++ "/charge_start") ∧
    v.stopCharge X = v.post (X.URI ++ "/v1/vehicles/" ++ v.vid ++ "/charge_stop") ∧
    ∀ uri : String,
      (∀ resp, v.Post uri = Except.ok resp →
        (200 ≤ resp.StatusCode ∧ resp.StatusCode < 300) ∨ resp.StatusCode = 405 →
        v.post uri = none) ∧
      (∀ resp, v.Post uri = Except.ok resp →
        ¬ (200 ≤ resp.StatusCode ∧ resp.StatusCode < 300) → resp.StatusCode ≠ 405 →
        v.post uri = some (Error.StatusError resp)) ∧
      (∀ resp, v.Post uri = Except.error (Error.StatusError resp) → resp.StatusCode = 405 →
        v.post uri = none) ∧
      (∀ e, v.Post uri = Except.error e →
        (∀ resp, e = Error.StatusError resp → resp.StatusCode ≠ 405) →
        v.post uri = some e) := by
  refine ⟨rfl, rfl, fun uri => ⟨?_, ?_, ?_, ?_⟩⟩
  · intro resp h hc
    rw [post_of_response v uri resp h, if_pos hc]
  · intro resp h h1 h2
    rw [post_of_response v uri resp h, if_neg (by tauto)]
  · intro resp h hc
    rw [post_of_failure v uri _ h]
    simp [hc]
  · intro e h hc
    rw [post_of_failure v uri _ h]
    cases e with
    | StatusError resp => simp [hc resp rfl]
    | New t => rfl

/-- C8 at the scenario of the spec: the POST of stopCharge is answered with status 405
and stopCharge returns nil. -/
theorem C8_post_ignores_405_witness :
    (examplePoster (Except.ok ⟨405⟩)).Post
        (exampleExt.URI ++ "/v1/vehicles/" ++ (examplePoster (Except.ok ⟨405⟩)).vid
          ++ "/charge_stop")
      = Except.ok ⟨405⟩ ∧
    (examplePoster (Except.ok ⟨405⟩)).stopCharge exampleExt = none :=
  ⟨rfl, by
    have h := C8_post_ignores_405 exampleExt (examplePoster (Except.ok ⟨405⟩))
    rw [h.2.1]
    exact (h.2.2 _).1 ⟨405⟩ rfl (Or.inr rfl)⟩

end vehicle

/-! ### The cached getter -/

namespace provider

/-- C10. For the cached getter with an existing entry: a call made before the time-to-
live has elapsed since the last fetch returns the cached outcome and leaves the
state, the count of invocations of the wrapped getter included, unchanged; a call
made after the time-to-live has elapsed invokes the wrapped getter exactly once,
returns what that invocation returns and stores it with the time of the call. -/
theorem C10_cache_freshness {α : Type} (g : Nat → α) (now : Int) (c : Cached α) (e : Entry α)
    (he : c.entry = some e) :
    (now - e.updated < c.cache → c.InterfaceGetter g now = (e.outcome, c)) ∧
    (c.cache < now - e.updated →
      (c.InterfaceGetter g now).1 = g c.calls ∧
      (c.InterfaceGetter g now).2.calls = c.calls + 1 ∧
      (c.InterfaceGetter g now).2.entry = some ⟨now, g c.calls⟩) := by
  constructor
  · intro h
    simp only [Cached.InterfaceGetter, he]
    rw [if_pos (le_of_lt h)]
  · intro h
    simp only [Cached.InterfaceGetter, he]
    rw [if_neg (not_le.mpr h)]
    exact ⟨rfl, rfl, rfl⟩

/-- C10 at a time-to-live of 60 with an entry fetched at time 100: a call at 130 is
served from the cache, a call at 170 fetches once. -/
theorem C10_cache_freshness_witness :
    ((⟨60, some ⟨100, "first"⟩, 1⟩ : Cached String).entry = some ⟨100, "first"⟩) ∧
    ((130 : Int) - 100 < 60 ∧
      (⟨60, some ⟨100, "first"⟩, 1⟩ : Cached String).InterfaceGetter
          (fun n => if n = 0 then "first" else "second") 130
        = ("first", ⟨60, some ⟨100, "first"⟩, 1⟩)) ∧
    ((60 : Int) < 170 - 100 ∧
      ((⟨60, some ⟨100, "first"⟩, 1⟩ : Cached String).InterfaceGetter
          (fun n => if n = 0 then "first" else "second") 170).1 = "second" ∧
      ((⟨60, some ⟨100, "first"⟩, 1⟩ : Cached String).InterfaceGetter
          (fun n => if n = 0 then "first" else "second") 170).2.calls = 2) :=
  ⟨rfl,
    ⟨by decide,
      (C10_cache_freshness (fun n => if n = 0 then "first" else "second") 130
        ⟨60, some ⟨100, "first"⟩, 1⟩ ⟨100, "first"⟩ rfl).1 (by decide)⟩,
    ⟨by decide,
      ((C10_cache_freshness (fun n => if n = 0 then "first" else "second") 170
        ⟨60, some ⟨100, "first"⟩, 1⟩ ⟨100, "first"⟩ rfl).2 (by decide)).1,
      ((C10_cache_freshness (fun n => if n = 0 then "first" else "second") 170
        ⟨60, some ⟨100, "first"⟩, 1⟩ ⟨100, "first"⟩ rfl).2 (by decide)).2.1⟩⟩

end provider

end evcc
